import Mathlib

/-!
Shallow embedding of `src/server.py` (vital-signs monitor server).

Conventions of the embedding:
* Python dicts with a fixed key schema become structures whose fields are
  `Option`-valued (a missing key is `none`); `d.get(k, v)` becomes `(field).getD v`.
* JSON numbers are modelled as `ℚ` (they are only stored and echoed, never
  computed with).
* `datetime.now().isoformat()` is passed in as a `nowIso : String` parameter and
  `time.time()` as `nowT : ℚ`.
* The durable file `vitals_history.json` is modelled as
  `diskFile : Option (List MedicalRecord)` inside the server state; whether a
  `json.dump` call succeeds is an explicit `writeOk : Bool` parameter
  (`save_vitals_history` catches and swallows its own exceptions, so on failure
  the state is unchanged and no exception propagates).
* A request body that is unparseable, or parses to a non-dict value on which the
  handler raises before any mutation (`data.get` raises `AttributeError` on
  non-dicts; `'timestamp' not in x` / `x['timestamp'] = ...` raises `TypeError`
  on ints, lists, `None`), is the `malformed` payload constructor.
-/

namespace VitalServer

/-- Body of a POST /api/vital_signs reading; every field optional, as the
handler reads each with `data.get(key, default)`. -/
structure Reading where
  bpm : Option ℚ
  bpm_status : Option String
  spo2 : Option ℚ
  spo2_status : Option String
  respiration_rate : Option ℚ
  rr_status : Option String
  temperature_c : Option ℚ
  temperature_f : Option ℚ
  temp_status : Option String
  signal_quality : Option String
  camera_status : Option String
  monitoring_status : Option String
  deriving Repr, DecidableEq

/-- An all-absent reading payload (the JSON object `{}`). -/
def Reading.empty : Reading :=
  ⟨none, none, none, none, none, none, none, none, none, none, none, none⟩

/-- The global `vital_signs_data` dict (the current VitalSnapshot),
src/server.py lines 19-34. -/
structure VitalSignsData where
  bpm : ℚ
  bpm_status : String
  spo2 : ℚ
  spo2_status : String
  respiration_rate : ℚ
  rr_status : String
  temperature_c : ℚ
  temperature_f : ℚ
  temp_status : String
  signal_quality : String
  camera_status : String
  monitoring_status : String
  last_update : String
  connection_status : String
  deriving Repr, DecidableEq

/-- The nested `vital_signs` object of a medical record. -/
structure VitalSignsObj where
  heart_rate_bpm : Option ℚ
  heart_rate_status : Option String
  spo2_percent : Option ℚ
  spo2_status : Option String
  respiration_rate_bpm : Option ℚ
  respiration_status : Option String
  temperature_celsius : Option ℚ
  temperature_fahrenheit : Option ℚ
  temperature_status : Option String
  deriving Repr, DecidableEq

/-- The nested `system_status` object of a medical record. -/
structure SystemStatusObj where
  signal_quality : Option String
  camera_status : Option String
  monitoring_status : Option String
  device_id : Option String
  deriving Repr, DecidableEq

/-- A medical history record (a JSON dict with this key schema; all keys
optional as far as the code is concerned - it accesses them with `.get` or,
in the log line, with `[...]` which raises `KeyError` when absent). -/
structure MedicalRecord where
  patient_id : Option String
  record_id : Option String
  timestamp : Option String
  trigger_type : Option String
  trigger_reason : Option String
  vital_signs : Option VitalSignsObj
  system_status : Option SystemStatusObj
  deriving Repr, DecidableEq

/-- The five parallel chart deques `historical_data`, each `deque(maxlen=100)`,
src/server.py lines 37-43. -/
structure Buffers where
  bpm : List ℚ
  spo2 : List ℚ
  respiration_rate : List ℚ
  temperature : List ℚ
  timestamps : List String
  deriving Repr, DecidableEq

/-- The empty initial buffers. -/
def emptyBuffers : Buffers := ⟨[], [], [], [], []⟩

/-- Whole mutable server state: the snapshot dict, the chart deques, the
in-memory `vitals_history` list, the durable file, and `last_data_received`. -/
structure ServerState where
  vital_signs_data : VitalSignsData
  historical_data : Buffers
  vitals_history : List MedicalRecord
  diskFile : Option (List MedicalRecord)
  last_data_received : ℚ
  deriving Repr, DecidableEq

/-- Append on a `deque(maxlen=100)`: when the deque is full the leftmost
(oldest) element is dropped. -/
def dequeAppend (q : List α) (x : α) : List α :=
  if q.length < 100 then q ++ [x] else q.drop 1 ++ [x]

/-- Last `n` elements of a list (all of it when it is shorter than `n`). -/
def lastN (n : Nat) (l : List α) : List α := l.drop (l.length - n)

/-- Inbound body of POST /api/vital_signs: either a JSON dict, or a body on
which the handler raises before mutating anything (unparseable body, or a
non-dict on which `data.get` raises `AttributeError`). -/
inductive ReadingPayload
  | obj (r : Reading)
  | malformed
  deriving Repr, DecidableEq

/-- Inbound body of POST /api/vitals_history: either a JSON dict, or a body on
which the handler raises before the append (unparseable body, or a non-dict
value on which the `'timestamp' not in ...` membership test or the
`medical_record['timestamp'] = ...` assignment raises `TypeError`). -/
inductive HistPayload
  | obj (r : MedicalRecord)
  | malformed
  deriving Repr, DecidableEq

/-- Result of POST /api/vital_signs: 200 success JSON or the 400 error JSON
produced by the `except` clause. -/
inductive VitalPostResult
  | ok
  | err
  deriving Repr, DecidableEq

/-- Result of POST /api/vitals_history: the 200 success JSON carries
`medical_record.get('record_id')` (null when absent); the `except` clause
returns the 400 error JSON. -/
inductive HistPostResult
  | ok (record_id : Option String)
  | err
  deriving Repr, DecidableEq

/-- Result of GET /api/vitals_history (the success JSON of lines 209-213). -/
structure QueryResult where
  records : List MedicalRecord
  total_count : Nat
  filtered_count : Nat
  deriving Repr, DecidableEq

/-- Initial `vital_signs_data`, src/server.py lines 19-34. -/
def initialVitalSignsData (startIso : String) : VitalSignsData where
  bpm := 0
  bpm_status := "Not Connected"
  spo2 := 0
  spo2_status := "Not Connected"
  respiration_rate := 0
  rr_status := "Not Connected"
  temperature_c := 0
  temperature_f := 0
  temp_status := "Not Connected"
  signal_quality := "No Signal"
  camera_status := "Not Active"
  monitoring_status := "STOPPED"
  last_update := startIso
  connection_status := "Disconnected"

/-- Process start: `load_vitals_history` loads the file when present and
parseable (`disk = some l`), otherwise starts with an empty list; the chart
deques start empty and `last_data_received = 0`. -/
def initialState (disk : Option (List MedicalRecord)) (startIso : String) : ServerState where
  vital_signs_data := initialVitalSignsData startIso
  historical_data := emptyBuffers
  vitals_history := disk.getD []
  diskFile := disk
  last_data_received := 0

/-- Handler of POST /api/vital_signs (src/server.py lines 102-145). On a dict
payload it overwrites every key of `vital_signs_data`, appends to the five
chart deques, and resets `last_data_received`; on a malformed payload the
`except` clause returns the 400 error with nothing mutated. -/
def receive_vital_signs (p : ReadingPayload) (nowIso : String) (nowT : ℚ)
    (s : ServerState) : ServerState × VitalPostResult :=
  match p with
  | .malformed => (s, .err)
  | .obj data =>
    ({ s with
        vital_signs_data :=
          { bpm := data.bpm.getD 0
            bpm_status := data.bpm_status.getD "Unknown"
            spo2 := data.spo2.getD 0
            spo2_status := data.spo2_status.getD "Unknown"
            respiration_rate := data.respiration_rate.getD 0
            rr_status := data.rr_status.getD "Unknown"
            temperature_c := data.temperature_c.getD 0
            temperature_f := data.temperature_f.getD 0
            temp_status := data.temp_status.getD "Unknown"
            signal_quality := data.signal_quality.getD "Unknown"
            camera_status := data.camera_status.getD "Unknown"
            monitoring_status := data.monitoring_status.getD "Unknown"
            last_update := nowIso
            connection_status := "Connected" }
        historical_data :=
          { bpm := dequeAppend s.historical_data.bpm (data.bpm.getD 0)
            spo2 := dequeAppend s.historical_data.spo2 (data.spo2.getD 0)
            respiration_rate :=
              dequeAppend s.historical_data.respiration_rate (data.respiration_rate.getD 0)
            temperature := dequeAppend s.historical_data.temperature (data.temperature_c.getD 0)
            timestamps := dequeAppend s.historical_data.timestamps nowIso }
        last_data_received := nowT },
     .ok)

/-- Lines 154-155: add a timestamp when the record has none. -/
def stampRecord (r : MedicalRecord) (nowIso : String) : MedicalRecord :=
  if r.timestamp = none then { r with timestamp := some nowIso } else r

/-- Whether the log line of lines 163-167 can evaluate: it subscripts
`medical_record['trigger_type']` and the four numeric vitals of
`medical_record['vital_signs']`, raising `KeyError` / `TypeError` when any is
absent. -/
def recordLoggable (r : MedicalRecord) : Bool :=
  r.trigger_type.isSome &&
  (match r.vital_signs with
   | some v =>
     v.heart_rate_bpm.isSome && v.spo2_percent.isSome &&
     v.respiration_rate_bpm.isSome && v.temperature_celsius.isSome
   | none => false)

/-- The function `save_vitals_history` (lines 68-75): rewrites the durable file
with the full in-memory list; any exception is caught and only printed, so a
failed write (`writeOk = false`) leaves the file as it was and does not
propagate to the caller. -/
def save_vitals_history (writeOk : Bool) (s : ServerState) : ServerState :=
  if writeOk then { s with diskFile := some s.vitals_history } else s

/-- Handler of POST /api/vitals_history (lines 147-178). On a dict payload the
record is stamped, appended to `vitals_history`, and the file is rewritten;
only then does the log line run, and if it raises (missing required structure)
the `except` clause returns the 400 error - with the append and the file write
already done. -/
def receive_vitals_history (p : HistPayload) (nowIso : String) (writeOk : Bool)
    (s : ServerState) : ServerState × HistPostResult :=
  match p with
  | .malformed => (s, .err)
  | .obj r =>
    let r := stampRecord r nowIso
    let s := save_vitals_history writeOk
      { s with vitals_history := s.vitals_history ++ [r] }
    if recordLoggable r then (s, .ok r.record_id) else (s, .err)

/-- The fixed test record built by POST /api/test (lines 223-246);
`int(time.time())` is the floor of the (nonnegative) clock value. -/
def testRecord (nowIso : String) (nowT : ℚ) : MedicalRecord where
  patient_id := some "test_patient"
  record_id := some ("test_record_" ++ toString ⌊nowT⌋)
  timestamp := some nowIso
  trigger_type := some "test"
  trigger_reason := some "Manual test record via API"
  vital_signs := some
    { heart_rate_bpm := some 75
      heart_rate_status := some "Normal"
      spo2_percent := some 98
      spo2_status := some "Normal"
      respiration_rate_bpm := some 16
      respiration_status := some "Normal"
      temperature_celsius := some (73/2)
      temperature_fahrenheit := some (977/10)
      temperature_status := some "Normal" }
  system_status := some
    { signal_quality := some "Good Signal"
      camera_status := some "Active"
      monitoring_status := some "ACTIVE"
      device_id := some "test_device" }

/-- Handler of POST /api/test (lines 219-257): appends the test record, saves,
and returns the created record. -/
def create_test_record (nowIso : String) (nowT : ℚ) (writeOk : Bool)
    (s : ServerState) : ServerState × MedicalRecord :=
  let r := testRecord nowIso nowT
  (save_vitals_history writeOk { s with vitals_history := s.vitals_history ++ [r] }, r)

/-- Sort key of lines 203 and 265: `x.get('timestamp', '')`. -/
def tsKey (r : MedicalRecord) : String := r.timestamp.getD ""

/-- Python's `sorted(rs, key=lambda x: x.get('timestamp',''), reverse=True)`:
a stable sort that puts larger keys first (ties keep submission order, exactly
as a stable merge sort with this comparison does). -/
def sortByTimestampDesc (rs : List MedicalRecord) : List MedicalRecord :=
  rs.mergeSort (fun a b => decide (tsKey b ≤ tsKey a))

/-- Python slice `l[:k]` for an arbitrary integer `k` (a negative `k` counts
from the end, clamping at zero). -/
def pySliceTo (l : List α) (k : Int) : List α :=
  if 0 ≤ k then l.take k.toNat else l.take (l.length - (-k).toNat)

/-- Lines 193-194: `if patient_id: filtered_records = [r for r in filtered_records
if r.get('patient_id') == patient_id]`. The guard is Python truthiness: the
filter runs only when the parameter is present and nonempty; a record missing
`patient_id` compares `None == patient_id`, false for a nonempty string. -/
def pidFilter (patient_id : Option String) (recs : List MedicalRecord) : List MedicalRecord :=
  match patient_id with
  | some p => if p ≠ "" then recs.filter (fun r => r.patient_id == some p) else recs
  | none => recs

/-- Lines 196-197: keep records with `r.get('timestamp','') >= start_date`,
under the same truthiness guard. -/
def startFilter (start_date : Option String) (recs : List MedicalRecord) : List MedicalRecord :=
  match start_date with
  | some d => if d ≠ "" then recs.filter (fun r => decide (d ≤ tsKey r)) else recs
  | none => recs

/-- Lines 199-200: keep records with `r.get('timestamp','') <= end_date`,
under the same truthiness guard. -/
def endFilter (end_date : Option String) (recs : List MedicalRecord) : List MedicalRecord :=
  match end_date with
  | some d => if d ≠ "" then recs.filter (fun r => decide (tsKey r ≤ d)) else recs
  | none => recs

/-- Lines 206-207: `if limit: filtered_records = filtered_records[:limit]` -
a zero limit is falsy and therefore skipped. -/
def applyLimit (limit : Option Int) (recs : List MedicalRecord) : List MedicalRecord :=
  match limit with
  | some k => if k ≠ 0 then pySliceTo recs k else recs
  | none => recs

/-- Handler of GET /api/vitals_history (lines 180-217): filter by patient, then
start date, then end date, sort by timestamp descending, apply the limit, and
report the unfiltered and filtered sizes. -/
def get_vitals_history (limit : Option Int)
    (patient_id start_date end_date : Option String)
    (s : ServerState) : QueryResult :=
  let recs := applyLimit limit
    (sortByTimestampDesc (endFilter end_date (startFilter start_date
      (pidFilter patient_id s.vitals_history))))
  { records := recs
    total_count := s.vitals_history.length
    filtered_count := recs.length }

/-- One pass of the loop body of `monitor_connection` (lines 77-85). -/
def monitor_connection_tick (nowT : ℚ) (s : ServerState) : ServerState :=
  if nowT - s.last_data_received > 10 then
    { s with vital_signs_data :=
        { s.vital_signs_data with
            connection_status := "Disconnected"
            monitoring_status := "DISCONNECTED" } }
  else s

/-- The socket `connect` handler (lines 259-266): emits the current snapshot
and the ten most recent records by descending timestamp. -/
def handle_connect (s : ServerState) : VitalSignsData × List MedicalRecord :=
  (s.vital_signs_data, (sortByTimestampDesc s.vitals_history).take 10)

/-- The conjunction of the three record filters of lines 193-200, under the
same truthiness guards as `get_vitals_history`. -/
def matchesFilters (patient_id start_date end_date : Option String)
    (r : MedicalRecord) : Bool :=
  (match patient_id with
   | some p => if p ≠ "" then r.patient_id == some p else true
   | none => true) &&
  (match start_date with
   | some d => if d ≠ "" then decide (d ≤ tsKey r) else true
   | none => true) &&
  (match end_date with
   | some d => if d ≠ "" then decide (tsKey r ≤ d) else true
   | none => true)

/-! Concrete data used by witnesses and counterexamples. -/

/-- A fixed ISO timestamp standing for `datetime.now().isoformat()`. -/
def exIso : String := "2024-01-01T00:00:00"

/-- A well-formed nested `vital_signs` object. -/
def exVitals : VitalSignsObj where
  heart_rate_bpm := some 72
  heart_rate_status := some "Normal"
  spo2_percent := some 97
  spo2_status := some "Normal"
  respiration_rate_bpm := some 15
  respiration_status := some "Normal"
  temperature_celsius := some 37
  temperature_fahrenheit := some (493/5)
  temperature_status := some "Normal"

/-- A record with a timestamp but missing `trigger_type` and `vital_signs`:
the log line of lines 163-167 raises `KeyError` on it. -/
def badRecord : MedicalRecord :=
  ⟨some "A", none, some "2024-01-01T09:00:00", none, none, none, none⟩

/-- A fully well-formed record with a caller-supplied `record_id`. -/
def goodRecord : MedicalRecord :=
  ⟨some "A", some "r1", some "2024-01-01T09:00:00", some "manual",
   some "routine check", some exVitals, none⟩

/-- A fully well-formed record without a `record_id`. -/
def noIdRecord : MedicalRecord :=
  ⟨some "A", none, some "2024-01-01T09:30:00", some "manual",
   some "routine check", some exVitals, none⟩

/-- A record with no `timestamp` key at all. -/
def noTsRecord : MedicalRecord :=
  ⟨some "A", some "r9", none, some "manual", none, some exVitals, none⟩

/-- Three stored records (two for patient A, one for B) used by the query
witnesses. -/
def recA1 : MedicalRecord :=
  ⟨some "A", some "a1", some "2024-01-01T10:00:00", some "manual", none, some exVitals, none⟩

/-- Second patient-A record, newer than `recA1`. -/
def recA2 : MedicalRecord :=
  ⟨some "A", some "a2", some "2024-01-02T10:00:00", some "alert", none, some exVitals, none⟩

/-- The single patient-B record. -/
def recB : MedicalRecord :=
  ⟨some "B", some "b1", some "2024-01-03T10:00:00", some "manual", none, some exVitals, none⟩

/-! Helper lemmas. -/

/-- The empty string is the least string in the lexicographic order used by
Python's `>=` / `<=` on timestamps. -/
theorem empty_le (s : String) : "" ≤ s := by
  rw [String.le_iff_toList_le]
  cases s.toList with
  | nil => exact le_refl _
  | cons c cs => exact le_of_lt (List.nil_lt_cons c cs)

/-- Only the empty string is below the empty string. -/
theorem le_empty_iff (s : String) : s ≤ "" ↔ s = "" :=
  ⟨fun h => le_antisymm h (empty_le s), fun h => h ▸ le_refl _⟩

/-- A deque append always leaves the appended element at the right end. -/
theorem dequeAppend_getLast (q : List α) (x : α) :
    (dequeAppend q x).getLast? = some x := by
  unfold dequeAppend
  split <;> simp

/-- The descending timestamp sort is pairwise sorted (newest first). -/
theorem sortDesc_pairwise (rs : List MedicalRecord) :
    (sortByTimestampDesc rs).Pairwise (fun a b => tsKey b ≤ tsKey a) := by
  have h : (rs.mergeSort (fun a b => decide (tsKey b ≤ tsKey a))).Pairwise
      (fun a b => decide (tsKey b ≤ tsKey a) = true) := by
    apply List.sorted_mergeSort
    · intro a b c hab hbc
      simp only [decide_eq_true_eq] at hab hbc ⊢
      exact le_trans hbc hab
    · intro a b
      rcases le_total (tsKey b) (tsKey a) with h1 | h1 <;> simp [h1]
  exact h.imp fun hab => of_decide_eq_true hab

/-- The sort is a permutation, so membership and length are preserved. -/
theorem mem_sortDesc {r : MedicalRecord} {rs : List MedicalRecord} :
    r ∈ sortByTimestampDesc rs ↔ r ∈ rs := List.mem_mergeSort

/-- Length is preserved by the sort. -/
theorem length_sortDesc (rs : List MedicalRecord) :
    (sortByTimestampDesc rs).length = rs.length := List.length_mergeSort rs

/-- The slice `l[:k]` is a sublist of `l` for every integer `k`. -/
theorem pySliceTo_sublist (l : List α) (k : Int) : (pySliceTo l k).Sublist l := by
  unfold pySliceTo
  split <;> exact List.take_sublist _ _

/-- Applying the limit yields a sublist. -/
theorem applyLimit_sublist (limit : Option Int) (l : List MedicalRecord) :
    (applyLimit limit l).Sublist l := by
  rcases limit with _ | k
  · exact List.Sublist.refl _
  · show (if k ≠ 0 then pySliceTo l k else l).Sublist l
    split
    · exact pySliceTo_sublist _ _
    · exact List.Sublist.refl _

/-- The three sequential filters of the handler fuse into a single filter by
the conjunction `matchesFilters`. -/
theorem filter_chain_eq (pid sd ed : Option String) (l : List MedicalRecord) :
    endFilter ed (startFilter sd (pidFilter pid l)) =
      l.filter (matchesFilters pid sd ed) := by
  unfold pidFilter startFilter endFilter matchesFilters
  rcases pid with _ | p <;> rcases sd with _ | d1 <;> rcases ed with _ | d2 <;>
    simp only [] <;>
    (try split_ifs) <;>
    simp [List.filter_filter, Bool.and_comm, Bool.and_left_comm, Bool.and_assoc]

/-- The records returned by the GET handler are the limit applied to the
descending sort of the fused filter. -/
theorem get_vitals_history_records (limit : Option Int) (pid sd ed : Option String)
    (s : ServerState) :
    (get_vitals_history limit pid sd ed s).records =
      applyLimit limit
        (sortByTimestampDesc (s.vitals_history.filter (matchesFilters pid sd ed))) := by
  unfold get_vitals_history
  rw [filter_chain_eq]

/-! Claim theorems. -/

/-- C5: on every liveness-monitor tick, if `now - last_data_received > 10`
(the fixed timeout) the snapshot's `connection_status` is set to
"Disconnected" and `monitoring_status` to "DISCONNECTED" and nothing else
changes; otherwise the tick changes nothing; and every successful ingestion
sets `connection_status` back to "Connected". -/
theorem liveness_tick_and_reconnect :
    (∀ (s : ServerState) (nowT : ℚ), nowT - s.last_data_received > 10 →
        monitor_connection_tick nowT s =
          { s with vital_signs_data :=
              { s.vital_signs_data with
                  connection_status := "Disconnected"
                  monitoring_status := "DISCONNECTED" } }) ∧
    (∀ (s : ServerState) (nowT : ℚ), ¬ nowT - s.last_data_received > 10 →
        monitor_connection_tick nowT s = s) ∧
    (∀ (r : Reading) (nowIso : String) (nowT : ℚ) (s : ServerState),
        (receive_vital_signs (.obj r) nowIso nowT s).1.vital_signs_data.connection_status =
          "Connected") := by
  refine ⟨fun s t h => ?_, fun s t h => ?_, fun r iso t s => rfl⟩
  · simp [monitor_connection_tick, h]
  · simp [monitor_connection_tick, h]

/-- Witness for C5: from the initial state (`last_data_received = 0`), a tick
at time 11 disconnects the snapshot, while a tick at time 5 changes nothing. -/
theorem liveness_tick_and_reconnect_witness :
    monitor_connection_tick 11 (initialState none "T0") =
      { initialState none "T0" with vital_signs_data :=
          { (initialState none "T0").vital_signs_data with
              connection_status := "Disconnected"
              monitoring_status := "DISCONNECTED" } } ∧
    monitor_connection_tick 5 (initialState none "T0") = initialState none "T0" :=
  ⟨liveness_tick_and_reconnect.1 _ 11 (by norm_num [initialState]),
   liveness_tick_and_reconnect.2.1 _ 5 (by norm_num [initialState])⟩

/-- C6: every JSON-object payload accepted by POST /api/vital_signs produces
the snapshot obtained by overlaying the payload onto defaults (missing
numeric fields 0, missing status fields "Unknown"), with `connection_status`
forced to "Connected" and `last_update` the current time; the bpm buffer's
last entry is the submitted bpm. -/
theorem snapshot_overlay (data : Reading) (nowIso : String) (nowT : ℚ) (s : ServerState) :
    (receive_vital_signs (.obj data) nowIso nowT s).1.vital_signs_data =
      { bpm := data.bpm.getD 0
        bpm_status := data.bpm_status.getD "Unknown"
        spo2 := data.spo2.getD 0
        spo2_status := data.spo2_status.getD "Unknown"
        respiration_rate := data.respiration_rate.getD 0
        rr_status := data.rr_status.getD "Unknown"
        temperature_c := data.temperature_c.getD 0
        temperature_f := data.temperature_f.getD 0
        temp_status := data.temp_status.getD "Unknown"
        signal_quality := data.signal_quality.getD "Unknown"
        camera_status := data.camera_status.getD "Unknown"
        monitoring_status := data.monitoring_status.getD "Unknown"
        last_update := nowIso
        connection_status := "Connected" } ∧
    (receive_vital_signs (.obj data) nowIso nowT s).1.historical_data.bpm.getLast? =
      some (data.bpm.getD 0) :=
  ⟨rfl, dequeAppend_getLast _ _⟩

/-- C8: a new subscriber receives the current snapshot plus the ten most
recent records (fewer if fewer exist) by descending timestamp (missing
timestamps sorting as the empty string), with no query filters involved. -/
theorem subscriber_replay (s : ServerState) :
    handle_connect s =
      (s.vital_signs_data, (sortByTimestampDesc s.vitals_history).take 10) ∧
    (handle_connect s).2.length = min 10 s.vitals_history.length ∧
    (handle_connect s).2.Pairwise (fun a b => tsKey b ≤ tsKey a) ∧
    ∀ r ∈ (handle_connect s).2, r ∈ s.vitals_history := by
  refine ⟨rfl, ?_, ?_, ?_⟩
  · show ((sortByTimestampDesc s.vitals_history).take 10).length = _
    rw [List.length_take, length_sortDesc]
  · exact (sortDesc_pairwise s.vitals_history).sublist (List.take_sublist _ _)
  · intro r hr
    exact mem_sortDesc.mp ((List.take_sublist _ _).subset hr)

/-- C9: a query with `limit=0` returns exactly what the same query with no
limit returns, because a zero limit is falsy and the truncation is skipped. -/
theorem limit_zero_treated_as_absent (pid sd ed : Option String) (s : ServerState) :
    get_vitals_history (some 0) pid sd ed s = get_vitals_history none pid sd ed s := by
  simp [get_vitals_history, applyLimit]

/-- C3: for every collection and every combination of optional filters (with
`limit`, when supplied, a positive integer as the interface specifies), the
GET handler returns exactly the matching records sorted by timestamp
descending (missing timestamps as the empty string) and truncated to the
first `limit`; `total_count` is the unfiltered size, `filtered_count` the
size after filtering and truncation, and `filtered_count ≤ total_count`. -/
theorem query_semantics (limit : Option Int) (pid sd ed : Option String) (s : ServerState)
    (hlim : limit = none ∨ ∃ n : Int, 0 < n ∧ limit = some n) :
    (get_vitals_history limit pid sd ed s).total_count = s.vitals_history.length ∧
    (get_vitals_history limit pid sd ed s).filtered_count =
      (get_vitals_history limit pid sd ed s).records.length ∧
    (get_vitals_history limit pid sd ed s).filtered_count ≤
      (get_vitals_history limit pid sd ed s).total_count ∧
    (∀ r ∈ (get_vitals_history limit pid sd ed s).records,
      r ∈ s.vitals_history ∧ matchesFilters pid sd ed r = true) ∧
    (get_vitals_history limit pid sd ed s).records.Pairwise (fun a b => tsKey b ≤ tsKey a) ∧
    (limit = none →
      (get_vitals_history limit pid sd ed s).records =
        sortByTimestampDesc (s.vitals_history.filter (matchesFilters pid sd ed))) ∧
    (∀ n : Int, limit = some n →
      (get_vitals_history limit pid sd ed s).records =
        (sortByTimestampDesc (s.vitals_history.filter (matchesFilters pid sd ed))).take
          n.toNat) := by
  have hrec := get_vitals_history_records limit pid sd ed s
  have hsub : (get_vitals_history limit pid sd ed s).records.Sublist
      (sortByTimestampDesc (s.vitals_history.filter (matchesFilters pid sd ed))) := by
    rw [hrec]; exact applyLimit_sublist _ _
  refine ⟨rfl, rfl, ?_, ?_, ?_, ?_, ?_⟩
  · show (get_vitals_history limit pid sd ed s).records.length ≤ s.vitals_history.length
    calc (get_vitals_history limit pid sd ed s).records.length
        ≤ (sortByTimestampDesc (s.vitals_history.filter (matchesFilters pid sd ed))).length :=
          hsub.length_le
      _ = (s.vitals_history.filter (matchesFilters pid sd ed)).length := length_sortDesc _
      _ ≤ s.vitals_history.length := List.length_filter_le _ _
  · intro r hr
    have hm : r ∈ s.vitals_history.filter (matchesFilters pid sd ed) :=
      mem_sortDesc.mp (hsub.subset hr)
    exact ⟨(List.mem_filter.mp hm).1, (List.mem_filter.mp hm).2⟩
  · exact (sortDesc_pairwise _).sublist hsub
  · intro h
    rw [hrec, h]
    rfl
  · intro n hn
    rcases hlim with h0 | ⟨m, hm, h0⟩
    · rw [h0] at hn; exact absurd hn (by simp)
    · rw [h0] at hn
      have : m = n := by injection hn
      subst this
      rw [hrec, h0]
      show applyLimit (some m) _ = _
      have hne : m ≠ 0 := by omega
      simp only [applyLimit, if_pos hne]
      unfold pySliceTo
      rw [if_pos (le_of_lt hm)]

/-- Witness for C3: the three-record store queried with `patient_id=A` and
`limit=2` has `filtered_count ≤ total_count`, and every returned record is a
stored record matching the filters. -/
theorem query_semantics_witness :
    (get_vitals_history (some 2) (some "A") none none
        (initialState (some [recA1, recB, recA2]) "T0")).filtered_count ≤
      (get_vitals_history (some 2) (some "A") none none
        (initialState (some [recA1, recB, recA2]) "T0")).total_count ∧
    ∀ r ∈ (get_vitals_history (some 2) (some "A") none none
        (initialState (some [recA1, recB, recA2]) "T0")).records,
      r ∈ (initialState (some [recA1, recB, recA2]) "T0").vitals_history ∧
        matchesFilters (some "A") none none r = true :=
  ⟨(query_semantics (some 2) (some "A") none none _
      (Or.inr ⟨2, by norm_num, rfl⟩)).2.2.1,
   (query_semantics (some 2) (some "A") none none _
      (Or.inr ⟨2, by norm_num, rfl⟩)).2.2.2.1⟩

/-- C10: a stored record lacking a timestamp is excluded whenever a nonempty
`start_date` is supplied (its key is the empty string, below every nonempty
string), but is included when only an `end_date` filter is supplied. -/
theorem missing_timestamp_date_filters (s : ServerState) (r : MedicalRecord)
    (hmem : r ∈ s.vitals_history) (hts : r.timestamp = none) :
    (∀ (limit : Option Int) (pid ed : Option String) (d : String), d ≠ "" →
        r ∉ (get_vitals_history limit pid (some d) ed s).records) ∧
    ∀ ed : Option String, r ∈ (get_vitals_history none none none ed s).records := by
  have hkey : tsKey r = "" := by simp [tsKey, hts]
  constructor
  · intro limit pid ed d hd hr
    have hm : r ∈ s.vitals_history.filter (matchesFilters pid (some d) ed) := by
      have hsub : (get_vitals_history limit pid (some d) ed s).records.Sublist
          (sortByTimestampDesc (s.vitals_history.filter (matchesFilters pid (some d) ed))) := by
        rw [get_vitals_history_records]; exact applyLimit_sublist _ _
      exact mem_sortDesc.mp (hsub.subset hr)
    have hmatch := (List.mem_filter.mp hm).2
    have hle : d ≤ tsKey r := by
      simp only [matchesFilters, Bool.and_eq_true] at hmatch
      have h2 := hmatch.1.2
      rw [if_pos hd] at h2
      exact of_decide_eq_true h2
    rw [hkey] at hle
    exact hd ((le_empty_iff d).mp hle)
  · intro ed
    rw [get_vitals_history_records]
    show r ∈ sortByTimestampDesc _
    rw [mem_sortDesc]
    refine List.mem_filter.mpr ⟨hmem, ?_⟩
    simp only [matchesFilters, Bool.and_eq_true]
    refine ⟨⟨by trivial, by trivial⟩, ?_⟩
    rcases ed with _ | d
    · rfl
    · show (if d ≠ "" then decide (tsKey r ≤ d) else true) = true
      split
      · rw [hkey]
        exact decide_eq_true (empty_le d)
      · rfl

/-- Witness for C10: the no-timestamp record is excluded by
`start_date=2024` and included by a query with only `end_date=2025`. -/
theorem missing_timestamp_date_filters_witness :
    noTsRecord ∉ (get_vitals_history none none (some "2024") none
        (initialState (some [noTsRecord]) "T0")).records ∧
    noTsRecord ∈ (get_vitals_history none none none (some "2025")
        (initialState (some [noTsRecord]) "T0")).records :=
  ⟨(missing_timestamp_date_filters (initialState (some [noTsRecord]) "T0") noTsRecord
      (by simp [initialState]) rfl).1 none none none "2024" (by decide),
   (missing_timestamp_date_filters (initialState (some [noTsRecord]) "T0") noTsRecord
      (by simp [initialState]) rfl).2 (some "2025")⟩

/-- Length of the last-100 slice of a list. -/
theorem lastN_length (l : List α) : (lastN 100 l).length = min l.length 100 := by
  simp only [lastN, List.length_drop]
  omega

/-- One successful ingestion call, with its payload and its wall-clock pair
(ISO string for the buffers and snapshot, numeric time for the liveness
state). -/
def ingestStep (s : ServerState) (c : Reading × String × ℚ) : ServerState :=
  (receive_vital_signs (.obj c.1) c.2.1 c.2.2 s).1

/-- Folding deque appends from a buffer within capacity keeps exactly the
last 100 of the buffer followed by the appended values. -/
theorem foldl_dequeAppend (xs : List α) : ∀ (q : List α), q.length ≤ 100 →
    xs.foldl dequeAppend q = lastN 100 (q ++ xs) := by
  induction xs with
  | nil =>
    intro q hq
    simp [lastN, Nat.sub_eq_zero_of_le hq]
  | cons x xs ih =>
    intro q hq
    have hlen : (dequeAppend q x).length ≤ 100 := by
      unfold dequeAppend
      split
      · simpa using by omega
      · rename_i h
        have hq100 : q.length = 100 := by omega
        simp [hq100]
    have := ih (dequeAppend q x) hlen
    rw [List.foldl_cons, this]
    unfold dequeAppend
    split
    · simp
    · rename_i h
      have hq100 : q.length = 100 := by omega
      have hqne : 1 ≤ q.length := by omega
      have h1 : List.drop 1 q ++ x :: xs = List.drop 1 (q ++ x :: xs) :=
        (List.drop_append_of_le_length hqne).symm
      unfold lastN
      rw [List.append_assoc, List.singleton_append, h1, List.drop_drop]
      congr 1
      simp only [List.length_drop, List.length_append, List.length_cons]
      omega

/-- C4: after every sequence of N successful ingestion calls from process
start, each of the five chart buffers has length `min N 100`, all five
lengths agree, and each buffer holds exactly the last `min N 100` submitted
values (missing fields as 0; the timestamps buffer holds the per-call
times), oldest entries evicted first. -/
theorem buffer_invariant (disk : Option (List MedicalRecord)) (startIso : String)
    (calls : List (Reading × String × ℚ)) :
    ((calls.foldl ingestStep (initialState disk startIso)).historical_data.bpm.length =
        min calls.length 100 ∧
      (calls.foldl ingestStep (initialState disk startIso)).historical_data.spo2.length =
        min calls.length 100 ∧
      (calls.foldl ingestStep
          (initialState disk startIso)).historical_data.respiration_rate.length =
        min calls.length 100 ∧
      (calls.foldl ingestStep (initialState disk startIso)).historical_data.temperature.length =
        min calls.length 100 ∧
      (calls.foldl ingestStep (initialState disk startIso)).historical_data.timestamps.length =
        min calls.length 100) ∧
    (calls.foldl ingestStep (initialState disk startIso)).historical_data.bpm =
      lastN 100 (calls.map fun c => c.1.bpm.getD 0) ∧
    (calls.foldl ingestStep (initialState disk startIso)).historical_data.spo2 =
      lastN 100 (calls.map fun c => c.1.spo2.getD 0) ∧
    (calls.foldl ingestStep (initialState disk startIso)).historical_data.respiration_rate =
      lastN 100 (calls.map fun c => c.1.respiration_rate.getD 0) ∧
    (calls.foldl ingestStep (initialState disk startIso)).historical_data.temperature =
      lastN 100 (calls.map fun c => c.1.temperature_c.getD 0) ∧
    (calls.foldl ingestStep (initialState disk startIso)).historical_data.timestamps =
      lastN 100 (calls.map fun c => c.2.1) := by
  have key : ∀ (s : ServerState) (cs : List (Reading × String × ℚ)),
      (cs.foldl ingestStep s).historical_data =
        { bpm := (cs.map fun c => c.1.bpm.getD 0).foldl dequeAppend s.historical_data.bpm
          spo2 := (cs.map fun c => c.1.spo2.getD 0).foldl dequeAppend s.historical_data.spo2
          respiration_rate := (cs.map fun c => c.1.respiration_rate.getD 0).foldl
            dequeAppend s.historical_data.respiration_rate
          temperature := (cs.map fun c => c.1.temperature_c.getD 0).foldl
            dequeAppend s.historical_data.temperature
          timestamps := (cs.map fun c => c.2.1).foldl
            dequeAppend s.historical_data.timestamps } := by
    intro s cs
    induction cs generalizing s with
    | nil => rfl
    | cons c cs ih =>
      simp only [List.foldl_cons, List.map_cons, ih]
      rfl
  have hb := key (initialState disk startIso) calls
  have h0 : (initialState disk startIso).historical_data = emptyBuffers := rfl
  rw [h0] at hb
  have hbpm : (calls.foldl ingestStep (initialState disk startIso)).historical_data.bpm =
      lastN 100 (calls.map fun c => c.1.bpm.getD 0) := by
    rw [hb]
    exact (foldl_dequeAppend _ [] (by simp)).trans (by simp)
  have hspo2 : (calls.foldl ingestStep (initialState disk startIso)).historical_data.spo2 =
      lastN 100 (calls.map fun c => c.1.spo2.getD 0) := by
    rw [hb]
    exact (foldl_dequeAppend _ [] (by simp)).trans (by simp)
  have hrr : (calls.foldl ingestStep
        (initialState disk startIso)).historical_data.respiration_rate =
      lastN 100 (calls.map fun c => c.1.respiration_rate.getD 0) := by
    rw [hb]
    exact (foldl_dequeAppend _ [] (by simp)).trans (by simp)
  have htemp : (calls.foldl ingestStep
        (initialState disk startIso)).historical_data.temperature =
      lastN 100 (calls.map fun c => c.1.temperature_c.getD 0) := by
    rw [hb]
    exact (foldl_dequeAppend _ [] (by simp)).trans (by simp)
  have hts : (calls.foldl ingestStep (initialState disk startIso)).historical_data.timestamps =
      lastN 100 (calls.map fun c => c.2.1) := by
    rw [hb]
    exact (foldl_dequeAppend _ [] (by simp)).trans (by simp)
  refine ⟨⟨?_, ?_, ?_, ?_, ?_⟩, hbpm, hspo2, hrr, htemp, hts⟩ <;>
    simp [hbpm, hspo2, hrr, htemp, hts, lastN_length]

/-- C1 counterexample: a JSON-object record that lacks `trigger_type` (so the
log line raises) gets an error response from POST /api/vitals_history, yet
the record has already been appended to the in-memory collection and written
to the durable store - the claim's "no shared state is mutated" is false. -/
theorem malformed_record_error_still_mutates :
    (receive_vitals_history (.obj badRecord) exIso true (initialState none exIso)).2 =
      .err ∧
    (receive_vitals_history (.obj badRecord) exIso true
        (initialState none exIso)).1.vitals_history = [badRecord] ∧
    (receive_vitals_history (.obj badRecord) exIso true
        (initialState none exIso)).1.diskFile = some [badRecord] ∧
    (initialState none exIso).vitals_history = [] :=
  ⟨rfl, rfl, rfl, rfl⟩

/-- C1 amended: malformed (non-object/non-parseable) payloads to either POST
endpoint return an error with no state mutation, but a JSON-object record
sent to POST /api/vitals_history whose required structure is missing returns
an error only after the record has been appended to the in-memory collection
and written to the durable store. -/
theorem malformed_payload_handling :
    (∀ (nowIso : String) (nowT : ℚ) (s : ServerState),
        receive_vital_signs .malformed nowIso nowT s = (s, .err)) ∧
    (∀ (nowIso : String) (writeOk : Bool) (s : ServerState),
        receive_vitals_history .malformed nowIso writeOk s = (s, .err)) ∧
    (∀ (r : MedicalRecord) (nowIso : String) (s : ServerState),
        recordLoggable (stampRecord r nowIso) = false →
        receive_vitals_history (.obj r) nowIso true s =
          ({ s with
              vitals_history := s.vitals_history ++ [stampRecord r nowIso]
              diskFile := some (s.vitals_history ++ [stampRecord r nowIso]) }, .err)) := by
  refine ⟨fun iso t s => rfl, fun iso ok s => rfl, fun r iso s h => ?_⟩
  unfold receive_vitals_history save_vitals_history
  simp [h]

/-- Witness for C1 (amended): running the handler on the concrete deficient
record mutates both the collection and the durable file while returning the
error result. -/
theorem malformed_payload_handling_witness :
    receive_vitals_history (.obj badRecord) exIso true (initialState none exIso) =
      ({ initialState none exIso with
          vitals_history := (initialState none exIso).vitals_history ++
            [stampRecord badRecord exIso]
          diskFile := some ((initialState none exIso).vitals_history ++
            [stampRecord badRecord exIso]) }, .err) :=
  malformed_payload_handling.2.2 badRecord exIso (initialState none exIso) (by decide)

/-- C2 counterexample: when the durable write fails, the caller receives the
plain success result (not an error/PersistenceError) - `save_vitals_history`
catches and swallows its own exception. -/
theorem persist_failure_not_reported :
    (receive_vitals_history (.obj goodRecord) exIso false (initialState none exIso)).2 =
      .ok (some "r1") ∧
    (receive_vitals_history (.obj goodRecord) exIso false (initialState none exIso)).2 ≠
      .err ∧
    (receive_vitals_history (.obj goodRecord) exIso false
        (initialState none exIso)).1.vitals_history = [goodRecord] ∧
    (receive_vitals_history (.obj goodRecord) exIso false
        (initialState none exIso)).1.diskFile = none :=
  ⟨rfl, by decide, rfl, rfl⟩

/-- C2 amended: when the synchronous durable write fails, the failure is only
logged and swallowed - the caller receives the ordinary success result with
the echoed record_id - while the in-memory collection still contains the new
record and the durable store keeps its prior contents. -/
theorem persist_failure_swallowed (r : MedicalRecord) (nowIso : String) (s : ServerState)
    (h : recordLoggable (stampRecord r nowIso) = true) :
    receive_vitals_history (.obj r) nowIso false s =
      ({ s with vitals_history := s.vitals_history ++ [stampRecord r nowIso] },
        .ok (stampRecord r nowIso).record_id) ∧
    stampRecord r nowIso ∈
      (receive_vitals_history (.obj r) nowIso false s).1.vitals_history ∧
    (receive_vitals_history (.obj r) nowIso false s).1.diskFile = s.diskFile := by
  have hstep : receive_vitals_history (.obj r) nowIso false s =
      ({ s with vitals_history := s.vitals_history ++ [stampRecord r nowIso] },
        .ok (stampRecord r nowIso).record_id) := by
    unfold receive_vitals_history save_vitals_history
    simp [h]
  refine ⟨hstep, ?_, ?_⟩
  · rw [hstep]
    simp
  · rw [hstep]

/-- Witness for C2 (amended): the concrete well-formed record under a failing
write still yields the success result and the in-memory append. -/
theorem persist_failure_swallowed_witness :
    receive_vitals_history (.obj goodRecord) exIso false (initialState none exIso) =
      ({ initialState none exIso with
          vitals_history := (initialState none exIso).vitals_history ++
            [stampRecord goodRecord exIso] },
        .ok (stampRecord goodRecord exIso).record_id) :=
  (persist_failure_swallowed goodRecord exIso (initialState none exIso) (by decide)).1

/-- C7 counterexample: a record posted without a `record_id` is stored with no
record_id at all (the server never assigns one) and the response echoes null,
refuting "carries a record_id that is a unique string, either supplied by the
caller or assigned by the server". -/
theorem record_id_not_assigned :
    (receive_vitals_history (.obj noIdRecord) exIso true (initialState none exIso)).2 =
      .ok none ∧
    (receive_vitals_history (.obj noIdRecord) exIso true
        (initialState none exIso)).1.vitals_history = [noIdRecord] ∧
    noIdRecord.record_id = none :=
  ⟨rfl, rfl, rfl⟩

/-- C7 amended: a record appended via POST /api/vitals_history carries exactly
the caller-supplied record_id (possibly absent - never server-assigned, no
uniqueness enforced) and the response echoes that value; a record created via
POST /api/test carries the server-assigned id `test_record_<floor(epoch)>`
and is returned inside the response record. -/
theorem record_id_echo_and_test_assignment :
    (∀ (r : MedicalRecord) (nowIso : String) (writeOk : Bool) (s : ServerState),
        recordLoggable (stampRecord r nowIso) = true →
        (receive_vitals_history (.obj r) nowIso writeOk s).2 = .ok r.record_id ∧
        (receive_vitals_history (.obj r) nowIso writeOk s).1.vitals_history =
          s.vitals_history ++ [stampRecord r nowIso] ∧
        (stampRecord r nowIso).record_id = r.record_id) ∧
    (∀ (nowIso : String) (nowT : ℚ) (writeOk : Bool) (s : ServerState),
        (create_test_record nowIso nowT writeOk s).2.record_id =
          some ("test_record_" ++ toString ⌊nowT⌋) ∧
        (create_test_record nowIso nowT writeOk s).1.vitals_history =
          s.vitals_history ++ [testRecord nowIso nowT] ∧
        (create_test_record nowIso nowT writeOk s).2 = testRecord nowIso nowT) := by
  constructor
  · intro r nowIso writeOk s h
    have hid : (stampRecord r nowIso).record_id = r.record_id := by
      unfold stampRecord
      split <;> rfl
    refine ⟨?_, ?_, hid⟩
    · unfold receive_vitals_history save_vitals_history
      cases writeOk <;> simp [h, hid]
    · unfold receive_vitals_history save_vitals_history
      cases writeOk <;> simp [h]
  · intro nowIso nowT writeOk s
    refine ⟨rfl, ?_, rfl⟩
    unfold create_test_record save_vitals_history
    cases writeOk <;> rfl

/-- Witness for C7 (amended): the concrete record with `record_id = "r1"` has
that id echoed by the append response. -/
theorem record_id_echo_witness :
    (receive_vitals_history (.obj goodRecord) exIso true (initialState none exIso)).2 =
      .ok goodRecord.record_id :=
  (record_id_echo_and_test_assignment.1 goodRecord exIso true (initialState none exIso)
    (by decide)).1

end VitalServer
